import Mathlib

/-!
Shallow embedding of the LC-3 emulator in `src/index.c` (vmtoy).

Machine words are modelled as `Nat` with explicit truncation modulo 2^16 at
every point where the C code stores into a `uint16_t` object.  The machine
state (memory, register file, host I/O) is passed explicitly.  Host standard
input is a list of pending bytes; host standard output is the list of bytes
written so far.  The indeterminate value of the uninitialized pointer
variable `c` read by the `TRAP_IN` handler is modelled by the state field
`indet`.
-/

/-- MEMORY_MAX from src/index.c: 1 <<< 16 memory locations. -/
def MEMORY_MAX : Nat := 1 <<< 16

/-- Truncation to a 16-bit word, as performed by storing into a `uint16_t`. -/
def word (n : Nat) : Nat := n % 65536

/-- Register indices, mirroring the `R_R0 .. R_COND` enum. -/
def R_R0 : Nat := 0
def R_R7 : Nat := 7
def R_PC : Nat := 8
def R_COND : Nat := 9

/-- Opcodes, mirroring the `OP_BR .. OP_TRAP` enum (values 0..15). -/
def OP_BR : Nat := 0
def OP_ADD : Nat := 1
def OP_LD : Nat := 2
def OP_ST : Nat := 3
def OP_JSR : Nat := 4
def OP_AND : Nat := 5
def OP_LDR : Nat := 6
def OP_STR : Nat := 7
def OP_RTI : Nat := 8
def OP_NOT : Nat := 9
def OP_LDI : Nat := 10
def OP_STI : Nat := 11
def OP_JMP : Nat := 12
def OP_RES : Nat := 13
def OP_LEA : Nat := 14
def OP_TRAP : Nat := 15

/-- Condition flags: FL_POS = 1 <<< 0, FL_ZRO = 1 <<< 1, FL_NEG = 1 <<< 2. -/
def FL_POS : Nat := 1
def FL_ZRO : Nat := 2
def FL_NEG : Nat := 4

/-- Trap codes from the `TRAP_GETC .. TRAP_HALT` enum. -/
def TRAP_GETC : Nat := 0x20
def TRAP_OUT : Nat := 0x21
def TRAP_PUTS : Nat := 0x22
def TRAP_IN : Nat := 0x23
def TRAP_PUTSP : Nat := 0x24
def TRAP_HALT : Nat := 0x25

/-- Memory-mapped keyboard status / data registers. -/
def MR_KBSR : Nat := 0xFE00
def MR_KBDR : Nat := 0xFE02

/-- Store into an array of `uint16_t` cells: the written value is truncated
to 16 bits, all other cells keep their contents. -/
def wset (f : Nat → Nat) (i v : Nat) : Nat → Nat :=
  fun j => if j = i then word v else f j

/-- The machine state: `memory` and `regs` are the C global arrays,
`stdin` the pending host input bytes, `output` the bytes written to host
standard output, `running` the loop flag of `main`, and `indet` the
indeterminate value obtained by casting the uninitialized pointer variable
`c` in the `TRAP_IN` case to `uint16_t`. -/
structure VMState where
  memory : Nat → Nat
  regs : Nat → Nat
  stdin : List Nat
  output : List Nat
  running : Bool
  indet : Nat

/-- `sign_extend` from src/index.c:
`if ((x >> (bit_count - 1) & 1)) x |= (0xFFFF << bit_count); return x;`
with the `|=` store truncated to the 16-bit variable `x`. -/
def sign_extend (x : Nat) (bit_count : Nat) : Nat :=
  if (x >>> (bit_count - 1)) &&& 1 ≠ 0 then word (x ||| (0xFFFF <<< bit_count)) else x

/-- `update_flags` from src/index.c: set R_COND to FL_ZRO, FL_NEG or FL_POS
according to `regs[r] == 0`, `regs[r] >> 15`, or otherwise. -/
def update_flags (r : Nat) (s : VMState) : VMState :=
  if s.regs r = 0 then { s with regs := wset s.regs R_COND FL_ZRO }
  else if s.regs r >>> 15 ≠ 0 then { s with regs := wset s.regs R_COND FL_NEG }
  else { s with regs := wset s.regs R_COND FL_POS }

/-- `swap_16` from src/index.c: `return (x << 8) | (x >> 8);` truncated to
the `uint16_t` return type. -/
def swap_16 (x : Nat) : Nat := word ((x <<< 8) ||| (x >>> 8))

/-- `mem_write` from src/index.c: `memory[addr] = val;`. -/
def mem_write (addr val : Nat) (s : VMState) : VMState :=
  { s with memory := wset s.memory addr val }

/-- `mem_read` from src/index.c.  A read at MR_KBSR first polls the host
(`check_key`, modelled as: a key is ready iff `stdin` is nonempty); if a key
is ready it sets memory[MR_KBSR] to 1 <<< 15 and memory[MR_KBDR] to the
character consumed by `getchar()`, otherwise it clears memory[MR_KBSR].
Then the (possibly updated) `memory[address]` is returned. -/
def mem_read (address : Nat) (s : VMState) : Nat × VMState :=
  if address = MR_KBSR then
    match s.stdin with
    | b :: rest =>
      let s' := { s with
        memory := wset (wset s.memory MR_KBSR (1 <<< 15)) MR_KBDR b,
        stdin := rest }
      (s'.memory address, s')
    | [] =>
      let s' := { s with memory := wset s.memory MR_KBSR 0 }
      (s'.memory address, s')
  else (s.memory address, s)

/-- Host little-endian read of two consecutive bytes into a `uint16_t`
(what `fread(&origin, sizeof(origin), 1, file)` yields on the host). -/
def le16 (b0 b1 : Nat) : Nat := b0 + 256 * b1

/-- The successive `uint16_t` elements `fread` delivers from a byte
stream on a little-endian host (complete two-byte elements only). -/
def toWordsLE : List Nat → List Nat
  | b0 :: b1 :: rest => le16 b0 b1 :: toWordsLE rest
  | _ => []

/-- The in-place byte-swapping store loop of `read_image_file`:
`while (read-- > 0) { *p = swap_16(*p); ++p; }` applied to the words the
`fread` call placed starting at `p = memory + origin`.  Net effect: cell
`origin + i` receives `swap_16` of the i-th word read. -/
def storeWords (mem : Nat → Nat) (p : Nat) : List Nat → (Nat → Nat)
  | [] => mem
  | w :: ws => storeWords (wset mem p (swap_16 w)) (p + 1) ws

/-- `read_image_file` from src/index.c, on the file's byte stream:
read the first two bytes as `origin` (host read, then `swap_16`);
compute `uint16_t max_read = MEMORY_MAX - origin` (truncated to 16 bits);
`fread` up to `max_read` words from the rest of the file into
`memory + origin`; byte-swap each word read, in place.
A file shorter than two bytes leaves memory unchanged (the `fread` of the
origin fails and nothing meaningful is loaded). -/
def read_image_file (file : List Nat) (mem : Nat → Nat) : Nat → Nat :=
  match file with
  | b0 :: b1 :: rest =>
    let origin := swap_16 (le16 b0 b1)
    let max_read := word (MEMORY_MAX - origin)
    storeWords mem origin ((toWordsLE rest).take max_read)
  | _ => mem

/-- Big-endian byte pair encoding of a 16-bit word, as it sits in an
LC-3 image file. -/
def be2 (w : Nat) : List Nat := [w / 256, w % 256]

/-- The on-disk byte stream of an image with origin `O` and payload words
`W` (spec §3: first two bytes are the big-endian origin, then the payload
words, each big-endian). -/
def encodeImage (O : Nat) (W : List Nat) : List Nat :=
  be2 O ++ W.flatMap be2

/-- The bytes the `TRAP_PUTS` loop writes: one character per word, the low
8 bits of each successive word starting at address `a`, until a zero word.
`fuel` bounds the walk (the C loop walks raw pointers). -/
def puts_chars (mem : Nat → Nat) : Nat → Nat → List Nat
  | _, 0 => []
  | a, fuel + 1 =>
    if mem a ≠ 0 then (mem a &&& 0xFF) :: puts_chars mem (a + 1) fuel else []

/-- The bytes the `TRAP_PUTSP` loop writes: for each word until zero, the
low byte, then the high byte if it is nonzero. -/
def putsp_chars (mem : Nat → Nat) : Nat → Nat → List Nat
  | _, 0 => []
  | a, fuel + 1 =>
    if mem a ≠ 0 then
      ((mem a &&& 0xFF) :: (if mem a >>> 8 ≠ 0 then [mem a >>> 8] else []))
        ++ putsp_chars mem (a + 1) fuel
    else []

/-- The bytes of the `TRAP_IN` prompt `"Enter a character: "`. -/
def promptIN : List Nat := "Enter a character: ".toList.map Char.toNat

/-- The bytes `puts("HALT")` writes (the string plus a newline). -/
def haltMsg : List Nat := "HALT".toList.map Char.toNat ++ [10]

/-- One execution of the body of the `switch(op)` statement in `main`,
on an already-fetched instruction (the PC has already been incremented
by the fetch).  Mirrors src/index.c lines 259-410 case by case. -/
def execute (instr : Nat) (s : VMState) : VMState :=
  if instr >>> 12 = OP_ADD then
    if (instr >>> 5) &&& 0x1 ≠ 0 then
      update_flags ((instr >>> 9) &&& 0x7)
        { s with regs :=
            (wset s.regs ((instr >>> 9) &&& 0x7)
              (s.regs ((instr >>> 6) &&& 0x7) + sign_extend (instr &&& 0x1F) 5)) }
    else
      update_flags ((instr >>> 9) &&& 0x7)
        { s with regs :=
            (wset s.regs ((instr >>> 9) &&& 0x7)
              (s.regs ((instr >>> 6) &&& 0x7) + s.regs (instr &&& 0x7))) }
  else if instr >>> 12 = OP_AND then
    if (instr >>> 5) &&& 0x1 ≠ 0 then
      update_flags ((instr >>> 9) &&& 0x7)
        { s with regs :=
            (wset s.regs ((instr >>> 9) &&& 0x7)
              (s.regs ((instr >>> 6) &&& 0x7) &&& sign_extend (instr &&& 0x1F) 5)) }
    else
      update_flags ((instr >>> 9) &&& 0x7)
        { s with regs :=
            (wset s.regs ((instr >>> 9) &&& 0x7)
              (s.regs ((instr >>> 6) &&& 0x7) &&& s.regs (instr &&& 0x7))) }
  else if instr >>> 12 = OP_NOT then
    update_flags ((instr >>> 9) &&& 0x7)
      { s with regs :=
          (wset s.regs ((instr >>> 9) &&& 0x7) (s.regs ((instr >>> 6) &&& 0x7) ^^^ 0xFFFF)) }
  else if instr >>> 12 = OP_BR then
    if ((instr >>> 9) &&& 0x7) &&& s.regs R_COND ≠ 0 then
      { s with regs :=
          (wset s.regs R_PC (s.regs R_PC + sign_extend (instr &&& 0x1FF) 9)) }
    else s
  else if instr >>> 12 = OP_JMP then
    { s with regs := (wset s.regs R_PC (s.regs ((instr >>> 6) &&& 0x7))) }
  else if instr >>> 12 = OP_JSR then
    if (instr >>> 11) &&& 1 = 0 then
      { s with regs :=
          (wset (wset s.regs R_R7 (s.regs R_PC)) R_PC
            (wset s.regs R_R7 (s.regs R_PC) ((instr >>> 6) &&& 0x7))) }
    else
      { s with regs :=
          (wset (wset s.regs R_R7 (s.regs R_PC)) R_PC
            (wset s.regs R_R7 (s.regs R_PC) R_PC + sign_extend (instr &&& 0x7FF) 11)) }
  else if instr >>> 12 = OP_LD then
    let p := mem_read (word (s.regs R_PC + sign_extend (instr &&& 0x1FF) 9)) s
    update_flags ((instr >>> 9) &&& 0x7)
      { p.2 with regs := (wset p.2.regs ((instr >>> 9) &&& 0x7) p.1) }
  else if instr >>> 12 = OP_LDI then
    let p1 := mem_read (word (s.regs R_PC + sign_extend (instr &&& 0x1FF) 9)) s
    let p2 := mem_read (word p1.1) p1.2
    update_flags ((instr >>> 9) &&& 0x7)
      { p2.2 with regs := (wset p2.2.regs ((instr >>> 9) &&& 0x7) p2.1) }
  else if instr >>> 12 = OP_LDR then
    let p := mem_read (word (s.regs ((instr >>> 6) &&& 0x7) + sign_extend (instr &&& 0x3F) 6)) s
    update_flags ((instr >>> 9) &&& 0x7)
      { p.2 with regs := (wset p.2.regs ((instr >>> 9) &&& 0x7) p.1) }
  else if instr >>> 12 = OP_LEA then
    update_flags ((instr >>> 9) &&& 0x7)
      { s with regs :=
          (wset s.regs ((instr >>> 9) &&& 0x7) (s.regs R_PC + sign_extend (instr &&& 0x1FF) 9)) }
  else if instr >>> 12 = OP_ST then
    mem_write (word (s.regs R_PC + sign_extend (instr &&& 0x1FF) 9))
      (s.regs ((instr >>> 9) &&& 0x7)) s
  else if instr >>> 12 = OP_STI then
    let p := mem_read (word (s.regs R_PC + sign_extend (instr &&& 0x1FF) 9)) s
    mem_write (word p.1) (p.2.regs ((instr >>> 9) &&& 0x7)) p.2
  else if instr >>> 12 = OP_STR then
    mem_write (word (s.regs ((instr >>> 6) &&& 0x7) + sign_extend (instr &&& 0x3F) 6))
      (s.regs ((instr >>> 9) &&& 0x7)) s
  else if instr >>> 12 = OP_TRAP then
    if instr &&& 0xFF = TRAP_GETC then
      match s.stdin with
      | b :: rest =>
        update_flags R_R0 { s with
          stdin := rest
          regs := (wset (wset s.regs R_R7 (s.regs R_PC)) R_R0 b) }
      | [] =>
        update_flags R_R0 { s with
          regs := (wset (wset s.regs R_R7 (s.regs R_PC)) R_R0 0xFFFF) }
    else if instr &&& 0xFF = TRAP_OUT then
      { s with
        regs := (wset s.regs R_R7 (s.regs R_PC))
        output := (s.output ++ [wset s.regs R_R7 (s.regs R_PC) R_R0 &&& 0xFF]) }
    else if instr &&& 0xFF = TRAP_PUTS then
      { s with
        regs := (wset s.regs R_R7 (s.regs R_PC))
        output := (s.output ++ puts_chars s.memory (wset s.regs R_R7 (s.regs R_PC) R_R0) MEMORY_MAX) }
    else if instr &&& 0xFF = TRAP_IN then
      match s.stdin with
      | b :: rest =>
        update_flags R_R0 { s with
          stdin := rest
          output := (s.output ++ promptIN ++ [b])
          regs := (wset (wset s.regs R_R7 (s.regs R_PC)) R_R0 s.indet) }
      | [] =>
        update_flags R_R0 { s with
          output := (s.output ++ promptIN ++ [0xFF])
          regs := (wset (wset s.regs R_R7 (s.regs R_PC)) R_R0 s.indet) }
    else if instr &&& 0xFF = TRAP_PUTSP then
      { s with
        regs := (wset s.regs R_R7 (s.regs R_PC))
        output := (s.output ++ putsp_chars s.memory (wset s.regs R_R7 (s.regs R_PC) R_R0) MEMORY_MAX) }
    else if instr &&& 0xFF = TRAP_HALT then
      { s with
        regs := (wset s.regs R_R7 (s.regs R_PC))
        output := (s.output ++ haltMsg)
        running := false }
    else { s with regs := (wset s.regs R_R7 (s.regs R_PC)) }
  else s

/-- One iteration of the executive loop of `main`:
`uint16_t instr = mem_read(regs[R_PC]++);` followed by the `switch`.
A state whose `running` flag is cleared is left unchanged. -/
def step (s : VMState) : VMState :=
  if s.running then
    let p := mem_read (s.regs R_PC) s
    let s1 := { p.2 with regs := wset p.2.regs R_PC (p.2.regs R_PC + 1) }
    execute p.1 s1
  else s

/-- `n` iterations of the executive loop. -/
def stepN : Nat → VMState → VMState
  | 0, s => s
  | n + 1, s => stepN n (step s)

/-- The machine state at entry to the executive loop of `main`: the C
globals are zero-initialized, the image files have been loaded, then
`regs[R_COND] = FL_ZRO` and `regs[R_PC] = PC_START` (0x3000). -/
def initState (files : List (List Nat)) (input : List Nat) (junk : Nat) : VMState :=
  { memory := files.foldl (fun m f => read_image_file f m) (fun _ => 0)
    regs := wset (wset (fun _ => 0) R_COND FL_ZRO) R_PC 0x3000
    stdin := input
    output := []
    running := true
    indet := junk }

/-- Host-level calls that affect the controlling terminal or end the
process, for modelling the shutdown paths of `main`. -/
inductive HostCall where
  | restoreTerminal : HostCall
  | writeStr : String → HostCall
  | flushOut : HostCall
  | exitCode : Int → HostCall
deriving DecidableEq

/-- The host calls `handle_interrupt` performs on SIGINT
(src/index.c lines 208-212): `restore_input_buffering(); printf("\n");
exit(-2);`. -/
def handle_interrupt_calls : List HostCall :=
  [HostCall.restoreTerminal, HostCall.writeStr "\n", HostCall.exitCode (-2)]

/-- The host calls `main` performs from the moment `TRAP_HALT` runs
(`puts("HALT"); fflush(stdout); running = 0;`) to process exit: after the
loop exits, `main` simply returns — no further calls appear between the end
of the `while` loop (line 411) and the end of `main` (line 412). -/
def halt_stop_calls : List HostCall :=
  [HostCall.writeStr "HALT\n", HostCall.flushOut]

/-- COND is well formed: it holds exactly one of FL_POS, FL_ZRO, FL_NEG. -/
def condValid (c : Nat) : Prop := c = FL_POS ∨ c = FL_ZRO ∨ c = FL_NEG

/-- The flag demanded by the specification for a 16-bit register value:
ZRO iff the value is zero, NEG iff its bit 15 is set, POS otherwise. -/
def signFlagSpec (v : Nat) : Nat :=
  if v = 0 then FL_ZRO else if v.testBit 15 then FL_NEG else FL_POS

/-- Whether an instruction updates the condition flags: the ALU and load
opcodes, plus the GETC and IN traps. -/
def flagUpdating (instr : Nat) : Bool :=
  let op := instr >>> 12
  (op == OP_ADD || op == OP_AND || op == OP_NOT || op == OP_LD ||
   op == OP_LDI || op == OP_LDR || op == OP_LEA) ||
  (op == OP_TRAP && (instr &&& 0xFF == TRAP_GETC || instr &&& 0xFF == TRAP_IN))

/-- The destination register whose value the flags reflect: R0 for the
trap cases, the DR field for the others. -/
def destOf (instr : Nat) : Nat :=
  if instr >>> 12 = OP_TRAP then R_R0 else (instr >>> 9) &&& 0x7

/-- A concrete machine state: one pending input byte 65, all registers and
memory zero, indeterminate value 999. -/
def stateA : VMState :=
  { memory := fun _ => 0
    regs := fun _ => 0
    stdin := [65]
    output := []
    running := true
    indet := 999 }

/-- A concrete machine state: PC = 0x3001 (as after fetching from 0x3000),
every other register zero, no pending input. -/
def stateB : VMState :=
  { memory := fun _ => 0
    regs := fun i => if i = 8 then 0x3001 else 0
    stdin := []
    output := []
    running := true
    indet := 0 }

/-! ### Basic lemmas about words and register/memory stores -/

theorem word_lt (n : Nat) : word n < 65536 := Nat.mod_lt _ (by norm_num)

theorem word_eq_of_lt {n : Nat} (h : n < 65536) : word n = n := Nat.mod_eq_of_lt h

theorem word_word (n : Nat) : word (word n) = word n := Nat.mod_mod_of_dvd n dvd_rfl

theorem wset_self (f : Nat → Nat) (i v : Nat) : wset f i v i = word v := by
  simp [wset]

theorem wset_ne {f : Nat → Nat} {i j v : Nat} (h : j ≠ i) : wset f i v j = f j := by
  simp [wset, h]

/-! ### Bit-arithmetic helpers -/

theorem lor_two_pow_mul_add (a : Nat) {b k : Nat} (hb : b < 2 ^ k) :
    2 ^ k * a ||| b = 2 ^ k * a + b := by
  apply Nat.eq_of_testBit_eq
  intro j
  rw [Nat.testBit_lor, Nat.testBit_mul_pow_two_add a hb j]
  have h0 : (2 ^ k * a).testBit j = if j < k then false else a.testBit (j - k) := by
    have h := Nat.testBit_mul_pow_two_add a (Nat.two_pow_pos k) j
    simpa using h
  rw [h0]
  by_cases hj : j < k
  · simp [hj]
  · have hbj : b.testBit j = false :=
      Nat.testBit_lt_two_pow
        (lt_of_lt_of_le hb (Nat.pow_le_pow_right (by norm_num) (le_of_not_lt hj)))
    simp [hj, hbj]

theorem swap_16_eq {x : Nat} (hx : x < 65536) :
    swap_16 x = 256 * (x % 256) + x / 256 := by
  unfold swap_16 word
  rw [Nat.shiftLeft_eq, Nat.shiftRight_eq_div_pow]
  have h256 : (2 : Nat) ^ 8 = 256 := by norm_num
  have hdiv : x / 2 ^ 8 < 2 ^ 8 := by omega
  rw [Nat.mul_comm x (2 ^ 8), lor_two_pow_mul_add x hdiv, h256]
  omega

/-! ### Frame lemmas for `mem_read` and `update_flags` -/

theorem mem_read_regs (a : Nat) (s : VMState) : (mem_read a s).2.regs = s.regs := by
  unfold mem_read
  split
  · match s.stdin with
    | [] => rfl
    | b :: rest => rfl
  · rfl

theorem update_flags_regs_ne (r : Nat) (s : VMState) {j : Nat} (h : j ≠ R_COND) :
    (update_flags r s).regs j = s.regs j := by
  unfold update_flags
  split
  · exact wset_ne h
  · split <;> exact wset_ne h

theorem update_flags_cond_valid (r : Nat) (s : VMState) :
    condValid ((update_flags r s).regs R_COND) := by
  unfold update_flags condValid
  split
  · simp [wset_self, word, FL_ZRO, FL_POS, FL_NEG]
  · split <;> simp [wset_self, word, FL_ZRO, FL_POS, FL_NEG]

/-- Claim C4 evidence: the SIGINT handler restores the captured terminal
settings, but the clean-halt path of `main` performs no terminal restore
between `TRAP_HALT` clearing `running` and the process exiting. -/
theorem restore_missing_on_clean_halt :
    HostCall.restoreTerminal ∈ handle_interrupt_calls ∧
    HostCall.restoreTerminal ∉ halt_stop_calls := by
  constructor
  · simp [handle_interrupt_calls]
  · simp [halt_stop_calls]

/-- Claim C1 evidence: executing TRAP with vector 0x23 (IN) from a state
with pending input byte 65 prints the prompt and echoes the byte, but
stores into R0 the indeterminate value of the uninitialized pointer
variable `c` (modelled as 999) instead of the character 65 that was read;
the flags are then updated on that wrong value. -/
theorem trap_in_stores_stale_pointer :
    stateA.stdin = [65] ∧
    (execute 0xF023 stateA).output = promptIN ++ [65] ∧
    (execute 0xF023 stateA).regs R_R0 = 999 ∧
    (999 : Nat) ≠ 65 := by
  refine ⟨rfl, rfl, ?_, by decide⟩
  rfl

/-- Claim C10: executing JSRR with base register R7 (instruction 0x41C0)
first writes the incremented PC into R7, then loads PC from R7, so the new
PC equals the incremented PC (the new R7 value), independent of R7's
prior contents. -/
theorem jsrr_base_r7_uses_new_r7 (s : VMState) :
    (execute 0x41C0 s).regs R_PC = word (s.regs R_PC) ∧
    (execute 0x41C0 s).regs R_R7 = word (s.regs R_PC) := by
  have he : execute 0x41C0 s =
      { s with regs :=
          (wset (wset s.regs R_R7 (s.regs R_PC)) R_PC (wset s.regs R_R7 (s.regs R_PC) R_R7)) } := by
    simp [execute, OP_ADD, OP_AND, OP_NOT, OP_BR, OP_JMP, OP_JSR, R_R7, R_PC]
    rfl
  rw [he]
  simp [wset, R_R7, R_PC, word_word]

/-- Claim C5: a memory read at KBSR with no key ready returns 0; with a key
ready it returns 0x8000 and leaves memory[KBDR] holding that key's byte
value; a read at any other address returns the stored word. -/
theorem mem_read_keyboard_spec :
    (∀ s : VMState, s.stdin = [] → (mem_read MR_KBSR s).1 = 0) ∧
    (∀ (s : VMState) (b : Nat) (rest : List Nat), s.stdin = b :: rest → b < 256 →
      (mem_read MR_KBSR s).1 = 0x8000 ∧ (mem_read MR_KBSR s).2.memory MR_KBDR = b) ∧
    (∀ (s : VMState) (a : Nat), a ≠ MR_KBSR → (mem_read a s).1 = s.memory a) := by
  refine ⟨?_, ?_, ?_⟩
  · intro s h
    unfold mem_read
    rw [if_pos rfl, h]
    simp [wset_self, word]
  · intro s b rest h hb
    unfold mem_read
    rw [if_pos rfl, h]
    refine ⟨?_, ?_⟩
    · simp [wset, MR_KBSR, MR_KBDR, word]
    · simp [wset, MR_KBSR, MR_KBDR, word]
      omega
  · intro s a h
    unfold mem_read
    rw [if_neg h]

/-- Claim C5 witness: concrete keyboard reads on `stateB` (no pending key)
and `stateA` (pending key 65), and a plain read at 0x3000. -/
theorem mem_read_keyboard_witness :
    (mem_read MR_KBSR stateB).1 = 0 ∧
    ((mem_read MR_KBSR stateA).1 = 0x8000 ∧ (mem_read MR_KBSR stateA).2.memory MR_KBDR = 65) ∧
    (mem_read 0x3000 stateA).1 = stateA.memory 0x3000 :=
  ⟨mem_read_keyboard_spec.1 stateB rfl,
   mem_read_keyboard_spec.2.1 stateA 65 [] rfl (by decide),
   mem_read_keyboard_spec.2.2 stateA 0x3000 (by decide)⟩

/-- Claim C9: for 16-bit x, `swap_16` returns `((x &&& 0xFF) <<< 8) ||| (x >>> 8)`
and is an involution. -/
theorem swap_16_spec_involutive :
    ∀ x : Nat, x < 65536 →
      swap_16 x = ((x &&& 0xFF) <<< 8) ||| (x >>> 8) ∧ swap_16 (swap_16 x) = x := by
  intro x hx
  have h1 : swap_16 x = 256 * (x % 256) + x / 256 := swap_16_eq hx
  have e8 : (2 : Nat) ^ 8 = 256 := by norm_num
  constructor
  · have hand : x &&& 0xFF = x % 256 := by
      have h := Nat.and_pow_two_sub_one_eq_mod x 8
      norm_num at h
      exact h
    rw [hand, Nat.shiftLeft_eq, Nat.shiftRight_eq_div_pow, Nat.mul_comm (x % 256) (2 ^ 8)]
    rw [lor_two_pow_mul_add (x % 256) (show x / 2 ^ 8 < 2 ^ 8 by omega)]
    rw [h1, e8]
  · rw [h1, swap_16_eq (show 256 * (x % 256) + x / 256 < 65536 by omega)]
    omega

/-- Claim C9 witness: the byte swap at x = 0x1234. -/
theorem swap_16_witness :
    swap_16 0x1234 = ((0x1234 &&& 0xFF) <<< 8) ||| (0x1234 >>> 8) ∧
    swap_16 (swap_16 0x1234) = 0x1234 :=
  swap_16_spec_involutive 0x1234 (by decide)

/-- Claim C6 fails as stated: at x = 32, n = 5, bit n−1 of x is 0 and
`sign_extend` returns x = 32 unchanged, while the claim demands
`x &&& ((1 <<< n) − 1) = 0`. -/
theorem sign_extend_counterexample :
    (32 >>> (5 - 1)) &&& 1 = 0 ∧
    sign_extend 32 5 = 32 ∧
    32 &&& ((1 <<< 5) - 1) = 0 ∧
    (32 : Nat) ≠ 0 := by decide

theorem word_lor (a b : Nat) : word (a ||| b) = word a ||| word b := by
  unfold word
  have h : (65536 : Nat) = 2 ^ 16 := by norm_num
  rw [h, ← Nat.and_pow_two_sub_one_eq_mod (a ||| b) 16, ← Nat.and_pow_two_sub_one_eq_mod a 16,
    ← Nat.and_pow_two_sub_one_eq_mod b 16]
  rw [Nat.land_comm (a ||| b), Nat.and_or_distrib_left, Nat.land_comm _ a, Nat.land_comm _ b]

/-- Claim C6, amended: for 1 ≤ n ≤ 16 and any x, if bit n−1 of x is 0 then
`sign_extend x n` returns x unchanged (which equals `x &&& ((1 <<< n) − 1)`
only when x already fits in n bits); if bit n−1 of x is 1 it returns
`x ||| ~((1 <<< n) − 1)` truncated to 16 bits, as claimed. -/
theorem sign_extend_amended :
    ∀ x n : Nat, 1 ≤ n → n ≤ 16 →
      (((x >>> (n - 1)) &&& 1 = 0 → sign_extend x n = x) ∧
       ((x >>> (n - 1)) &&& 1 = 1 →
         sign_extend x n = word (x ||| (0xFFFF ^^^ ((1 <<< n) - 1))))) := by
  intro x n h1 h16
  constructor
  · intro h0
    unfold sign_extend
    simp [h0]
  · intro hb
    unfold sign_extend
    rw [if_pos (show (x >>> (n - 1)) &&& 1 ≠ 0 by omega)]
    rw [word_lor, word_lor]
    congr 1
    interval_cases n <;> decide

/-- Claim C6 witness: the amended statement applied at (x,n) = (32,5) and
(31,5). -/
theorem sign_extend_amended_witness :
    sign_extend 32 5 = 32 ∧
    sign_extend 31 5 = word (31 ||| (0xFFFF ^^^ ((1 <<< 5) - 1))) :=
  ⟨(sign_extend_amended 32 5 (by decide) (by decide)).1 (by decide),
   (sign_extend_amended 31 5 (by decide) (by decide)).2 (by decide)⟩

theorem shift15_iff_testBit {v : Nat} (hv : v < 65536) :
    v >>> 15 ≠ 0 ↔ v.testBit 15 = true := by
  rw [Nat.shiftRight_eq_div_pow, Nat.testBit_to_div_mod, decide_eq_true_iff]
  have h15 : (2 : Nat) ^ 15 = 32768 := by norm_num
  rw [h15]
  omega

theorem update_flags_spec (r : Nat) (s : VMState) (hr : r ≠ R_COND) (hv : s.regs r < 65536) :
    (update_flags r s).regs R_COND = signFlagSpec (s.regs r) ∧
    (update_flags r s).regs r = s.regs r := by
  unfold update_flags signFlagSpec
  by_cases h0 : s.regs r = 0
  · simp [h0, wset_self, wset_ne hr, word, FL_ZRO]
  · by_cases h15 : s.regs r >>> 15 ≠ 0
    · have ht : (s.regs r).testBit 15 = true := (shift15_iff_testBit hv).mp h15
      simp [h0, h15, ht, wset_self, wset_ne hr, word, FL_NEG]
    · have ht : ¬(s.regs r).testBit 15 = true := fun hb => h15 ((shift15_iff_testBit hv).mpr hb)
      simp [h0, h15, ht, wset_self, wset_ne hr, word, FL_POS]

/-- Claim C8: ADD computes its result modulo 2^16 with silent wrap-around,
in both its forms — register mode (`DR ← R[SR1] + R[SR2]`) and immediate
mode (`DR ← R[SR1] + imm5`); in particular instruction 0x127F
(ADD R1,R1,#-1) from a state with R1 = 0 yields R1 = 0xFFFF and
COND = NEG. -/
theorem add_modulo_wrap :
    (∀ (s : VMState) (instr : Nat), instr >>> 12 = OP_ADD → (instr >>> 5) &&& 1 ≠ 0 →
      (execute instr s).regs ((instr >>> 9) &&& 0x7) =
        (s.regs ((instr >>> 6) &&& 0x7) + sign_extend (instr &&& 0x1F) 5) % 65536) ∧
    (∀ (s : VMState) (instr : Nat), instr >>> 12 = OP_ADD → (instr >>> 5) &&& 1 = 0 →
      (execute instr s).regs ((instr >>> 9) &&& 0x7) =
        (s.regs ((instr >>> 6) &&& 0x7) + s.regs (instr &&& 0x7)) % 65536) ∧
    (∀ s : VMState, s.regs 1 = 0 →
      (execute 0x127F s).regs 1 = 0xFFFF ∧ (execute 0x127F s).regs R_COND = FL_NEG) := by
  refine ⟨?_, ?_, ?_⟩
  · intro s instr hop himm
    rw [Nat.and_one_is_mod] at himm
    have himm2 : instr >>> 5 % 2 = 1 := by omega
    have hr0 : (instr >>> 9) &&& 0x7 ≠ R_COND := by
      have h7 : (instr >>> 9) &&& 0x7 ≤ 0x7 := Nat.and_le_right
      simp only [R_COND]
      omega
    simp only [execute, OP_ADD, hop, if_true, reduceIte, Nat.and_one_is_mod, himm2,
      ne_eq, one_ne_zero, not_false_eq_true, if_pos]
    rw [update_flags_regs_ne _ _ hr0]
    simp [wset_self, word]
  · intro s instr hop himm
    rw [Nat.and_one_is_mod] at himm
    have himm2 : ¬instr >>> 5 % 2 = 1 := by omega
    have hr0 : (instr >>> 9) &&& 0x7 ≠ R_COND := by
      have h7 : (instr >>> 9) &&& 0x7 ≤ 0x7 := Nat.and_le_right
      simp only [R_COND]
      omega
    simp [execute, OP_ADD, hop, himm2]
    rw [update_flags_regs_ne _ _ hr0]
    simp [wset_self, word]
  · intro s h1
    have he : execute 0x127F s =
        update_flags 1 { s with regs := wset s.regs 1 (s.regs 1 + 65535) } := by
      simp [execute, OP_ADD, show sign_extend (0x127F &&& 0x1F) 5 = 65535 from by decide]
      rfl
    rw [he]
    have hlt : ({ s with regs := wset s.regs 1 (s.regs 1 + 65535) } : VMState).regs 1 < 65536 := by
      simp only [wset_self]
      exact word_lt _
    have hspec := update_flags_spec 1 { s with regs := wset s.regs 1 (s.regs 1 + 65535) }
      (by simp [R_COND]) hlt
    have hreg : ({ s with regs := wset s.regs 1 (s.regs 1 + 65535) } : VMState).regs 1 = 65535 := by
      simp only [wset_self, h1, word]
    refine ⟨?_, ?_⟩
    · rw [hspec.2, hreg]
    · rw [hspec.1, hreg]
      decide

/-- Claim C3 fails as stated: the TRAP instruction 0xF000 has the unknown
vector 0x00, yet executing it from `stateB` (R7 = 0, PC = 0x3001 after
fetch) changes R7 from 0 to 0x3001, because the OP_TRAP case stores
`regs[R_R7] = regs[R_PC]` before dispatching on the vector. -/
theorem unknown_trap_counterexample :
    (0xF000 : Nat) >>> 12 = OP_TRAP ∧
    ((0xF000 : Nat) &&& 0xFF) ∉ [TRAP_GETC, TRAP_OUT, TRAP_PUTS, TRAP_IN, TRAP_PUTSP, TRAP_HALT] ∧
    stateB.regs R_R7 = 0 ∧
    (execute 0xF000 stateB).regs R_R7 = 0x3001 ∧
    (0x3001 : Nat) ≠ 0 := by
  refine ⟨by decide, by decide, rfl, ?_, by decide⟩
  rfl

/-- Claim C3, amended: instructions with opcode RES (0b1101) or RTI (0b1000)
leave the entire machine state unchanged (the only state change is the PC
increment performed at fetch); a TRAP instruction with a vector outside
{0x20,...,0x25} additionally stores the incremented PC into R7 (the
unconditional `regs[R_R7] = regs[R_PC]` of the OP_TRAP case) but changes
nothing else. -/
theorem res_rti_unknown_trap_effects :
    (∀ (s : VMState) (instr : Nat), instr >>> 12 = OP_RES ∨ instr >>> 12 = OP_RTI →
      execute instr s = s) ∧
    (∀ (s : VMState) (instr : Nat), instr >>> 12 = OP_TRAP →
      (instr &&& 0xFF) ∉ [TRAP_GETC, TRAP_OUT, TRAP_PUTS, TRAP_IN, TRAP_PUTSP, TRAP_HALT] →
      execute instr s = { s with regs := wset s.regs R_R7 (s.regs R_PC) }) := by
  constructor
  · intro s instr hop
    rcases hop with h | h <;>
      simp [execute, h, OP_BR, OP_ADD, OP_LD, OP_ST, OP_JSR, OP_AND, OP_LDR, OP_STR,
        OP_RTI, OP_NOT, OP_LDI, OP_STI, OP_JMP, OP_RES, OP_LEA, OP_TRAP]
  · intro s instr hop hv
    simp only [TRAP_GETC, TRAP_OUT, TRAP_PUTS, TRAP_IN, TRAP_PUTSP, TRAP_HALT,
      List.mem_cons, List.mem_singleton, not_or] at hv
    obtain ⟨g1, g2, g3, g4, g5, g6, -⟩ := hv
    simp [execute, hop, OP_BR, OP_ADD, OP_LD, OP_ST, OP_JSR, OP_AND, OP_LDR, OP_STR,
      OP_RTI, OP_NOT, OP_LDI, OP_STI, OP_JMP, OP_RES, OP_LEA, OP_TRAP,
      TRAP_GETC, TRAP_OUT, TRAP_PUTS, TRAP_IN, TRAP_PUTSP, TRAP_HALT,
      g1, g2, g3, g4, g5, g6]

/-- Claim C3 witness: the amended statement applied to the RES instruction
0xD000 and the unknown-vector TRAP instruction 0xF000 on `stateB`. -/
theorem res_rti_unknown_trap_witness :
    execute 0xD000 stateB = stateB ∧
    execute 0xF000 stateB = { stateB with regs := wset stateB.regs R_R7 (stateB.regs R_PC) } :=
  ⟨res_rti_unknown_trap_effects.1 stateB 0xD000 (Or.inl (by decide)),
   res_rti_unknown_trap_effects.2 stateB 0xF000 (by decide) (by decide)⟩

/-! ### Loader lemmas -/

theorem word_swap_16 (x : Nat) : word (swap_16 x) = swap_16 x := by
  unfold swap_16
  exact word_word _

theorem storeWords_apply (ws : List Nat) (mem : Nat → Nat) (p q : Nat) :
    storeWords mem p ws q =
      if p ≤ q ∧ q < p + ws.length then swap_16 (ws.getD (q - p) 0) else mem q := by
  induction ws generalizing mem p with
  | nil =>
    rw [storeWords]
    rw [if_neg (by simp only [List.length_nil]; omega)]
  | cons w ws ih =>
    rw [storeWords, ih]
    by_cases h1 : p + 1 ≤ q ∧ q < p + 1 + ws.length
    · rw [if_pos h1, if_pos (by simp only [List.length_cons]; omega)]
      have hq : q - p = (q - (p + 1)) + 1 := by omega
      rw [hq, List.getD_cons_succ]
    · rw [if_neg h1]
      by_cases h2 : q = p
      · subst h2
        rw [if_pos (by simp only [List.length_cons]; omega)]
        show wset mem q (swap_16 w) q = _
        rw [wset_self, word_swap_16]
        simp
      · rw [wset_ne h2, if_neg (by simp only [List.length_cons]; omega)]

theorem toWordsLE_flatMap (W : List Nat) :
    toWordsLE (W.flatMap be2) = W.map (fun w => le16 (w / 256) (w % 256)) := by
  induction W with
  | nil => rfl
  | cons w ws ih =>
    rw [List.flatMap_cons, be2]
    show toWordsLE (w / 256 :: w % 256 :: ws.flatMap be2) = _
    rw [toWordsLE, ih]
    rfl

theorem swap_16_le16_be {w : Nat} (hw : w < 65536) :
    swap_16 (le16 (w / 256) (w % 256)) = w := by
  have h : le16 (w / 256) (w % 256) < 65536 := by unfold le16; omega
  rw [swap_16_eq h]
  unfold le16
  omega

/-- Claim C2 fails as stated at origin O = 0: the image with origin 0 and
one payload word 5 loads nothing, because the 16-bit clamp
`uint16_t max_read = MEMORY_MAX - origin` is 65536 − 0 truncated to 0;
the claim demands memory[0] = 5 since 0 < min 1 (65536 − 0). -/
theorem read_image_origin_zero_counterexample :
    (0 : Nat) < min 1 (65536 - 0) ∧
    read_image_file (encodeImage 0 [5]) (fun _ => 0) (0 + 0) = 0 ∧
    (5 : Nat) ≠ 0 := by
  refine ⟨by decide, ?_, by decide⟩
  rfl

/-- Claim C2, amended: loading the image with origin O and payload words
W₀..Wₖ₋₁ gives memory[O+i] = Wᵢ for i < min(k, (65536 − O) mod 2¹⁶) — the
clamp is computed in 16 bits, so it is 65536 − O for 1 ≤ O ≤ 0xFFFF but 0
for O = 0, where nothing is loaded — and every other cell is unchanged. -/
theorem read_image_file_spec :
    ∀ (O : Nat) (W : List Nat) (mem : Nat → Nat), O < 65536 → (∀ w ∈ W, w < 65536) →
      (∀ i < min W.length (word (65536 - O)),
        read_image_file (encodeImage O W) mem (O + i) = W.getD i 0) ∧
      (∀ a, a < O ∨ O + min W.length (word (65536 - O)) ≤ a →
        read_image_file (encodeImage O W) mem a = mem a) := by
  intro O W mem hO hW
  have hor : swap_16 (le16 (O / 256) (O % 256)) = O := swap_16_le16_be hO
  have hu : read_image_file (encodeImage O W) mem =
      storeWords mem O
        ((W.map (fun w => le16 (w / 256) (w % 256))).take (word (65536 - O))) := by
    show read_image_file (O / 256 :: O % 256 :: W.flatMap be2) mem = _
    rw [read_image_file]
    rw [toWordsLE_flatMap, hor]
    rfl
  have hlen : ((W.map (fun w => le16 (w / 256) (w % 256))).take (word (65536 - O))).length
      = min W.length (word (65536 - O)) := by
    rw [List.length_take, List.length_map]
    omega
  constructor
  · intro i hi
    rw [hu, storeWords_apply, if_pos (by rw [hlen]; omega)]
    have hiW : i < W.length := by omega
    have hit : O + i - O = i := by omega
    rw [hit]
    have hilen : i < ((W.map (fun w => le16 (w / 256) (w % 256))).take (word (65536 - O))).length := by
      omega
    rw [List.getD_eq_getElem _ _ hilen, List.getElem_take, List.getElem_map,
      List.getD_eq_getElem _ _ hiW]
    exact swap_16_le16_be (hW _ (List.getElem_mem hiW))
  · intro a ha
    rw [hu, storeWords_apply, if_neg (by rw [hlen]; omega)]

/-- Claim C2 witness: the amended statement applied to the image with
origin 0x3000 and payload [7, 8, 9], read back at 0x3000 and at the
untouched cell 5. -/
theorem read_image_file_spec_witness :
    read_image_file (encodeImage 0x3000 [7, 8, 9]) (fun _ => 0) (0x3000 + 0) = [7, 8, 9].getD 0 0 ∧
    read_image_file (encodeImage 0x3000 [7, 8, 9]) (fun _ => 0) 5 = (fun _ => (0 : Nat)) 5 :=
  ⟨(read_image_file_spec 0x3000 [7, 8, 9] (fun _ => 0) (by decide) (by decide)).1 0 (by decide),
   (read_image_file_spec 0x3000 [7, 8, 9] (fun _ => 0) (by decide) (by decide)).2 5 (Or.inl (by decide))⟩

/-! ### Condition flag invariant -/

theorem update_flags_dest (r : Nat) (s : VMState) (hr : r ≤ 7) (hv : s.regs r < 65536) :
    (update_flags r s).regs R_COND = signFlagSpec ((update_flags r s).regs r) := by
  have hne : r ≠ R_COND := by simp only [R_COND]; omega
  obtain ⟨h1, h2⟩ := update_flags_spec r s hne hv
  rw [h1, h2]

theorem execute_condValid (instr : Nat) (s : VMState) (h : condValid (s.regs R_COND)) :
    condValid ((execute instr s).regs R_COND) := by
  by_cases hADD : instr >>> 12 = OP_ADD
  · by_cases him : instr >>> 5 % 2 = 1 <;>
      · simp [execute, hADD, him, OP_ADD]
        exact update_flags_cond_valid _ _
  by_cases hAND : instr >>> 12 = OP_AND
  · by_cases him : instr >>> 5 % 2 = 1 <;>
      · simp [execute, hAND, him, OP_ADD, OP_AND]
        exact update_flags_cond_valid _ _
  by_cases hNOT : instr >>> 12 = OP_NOT
  · simp [execute, hNOT, OP_ADD, OP_AND, OP_NOT]
    exact update_flags_cond_valid _ _
  by_cases hBR : instr >>> 12 = OP_BR
  · by_cases hbr : ((instr >>> 9) &&& 0x7) &&& s.regs 9 = 0 <;>
      · simp [execute, hBR, hbr, OP_ADD, OP_AND, OP_NOT, OP_BR, wset, R_COND, R_PC]
        exact h
  by_cases hJMP : instr >>> 12 = OP_JMP
  · simp [execute, hJMP, OP_ADD, OP_AND, OP_NOT, OP_BR, OP_JMP, wset, R_COND, R_PC]
    exact h
  by_cases hJSR : instr >>> 12 = OP_JSR
  · by_cases hj : instr >>> 11 % 2 = 0 <;>
      · simp [execute, hJSR, hj, OP_ADD, OP_AND, OP_NOT, OP_BR, OP_JMP, OP_JSR, wset,
          R_COND, R_PC, R_R7]
        exact h
  by_cases hLD : instr >>> 12 = OP_LD
  · simp [execute, hLD, OP_ADD, OP_AND, OP_NOT, OP_BR, OP_JMP, OP_JSR, OP_LD]
    exact update_flags_cond_valid _ _
  by_cases hLDI : instr >>> 12 = OP_LDI
  · simp [execute, hLDI, OP_ADD, OP_AND, OP_NOT, OP_BR, OP_JMP, OP_JSR, OP_LD, OP_LDI]
    exact update_flags_cond_valid _ _
  by_cases hLDR : instr >>> 12 = OP_LDR
  · simp [execute, hLDR, OP_ADD, OP_AND, OP_NOT, OP_BR, OP_JMP, OP_JSR, OP_LD, OP_LDI, OP_LDR]
    exact update_flags_cond_valid _ _
  by_cases hLEA : instr >>> 12 = OP_LEA
  · simp [execute, hLEA, OP_ADD, OP_AND, OP_NOT, OP_BR, OP_JMP, OP_JSR, OP_LD, OP_LDI, OP_LDR,
      OP_LEA]
    exact update_flags_cond_valid _ _
  by_cases hST : instr >>> 12 = OP_ST
  · simp [execute, hST, OP_ADD, OP_AND, OP_NOT, OP_BR, OP_JMP, OP_JSR, OP_LD, OP_LDI, OP_LDR,
      OP_LEA, OP_ST, mem_write]
    exact h
  by_cases hSTI : instr >>> 12 = OP_STI
  · simp [execute, hSTI, OP_ADD, OP_AND, OP_NOT, OP_BR, OP_JMP, OP_JSR, OP_LD, OP_LDI, OP_LDR,
      OP_LEA, OP_ST, OP_STI, mem_write, mem_read_regs]
    exact h
  by_cases hSTR : instr >>> 12 = OP_STR
  · simp [execute, hSTR, OP_ADD, OP_AND, OP_NOT, OP_BR, OP_JMP, OP_JSR, OP_LD, OP_LDI, OP_LDR,
      OP_LEA, OP_ST, OP_STI, OP_STR, mem_write]
    exact h
  by_cases hTRAP : instr >>> 12 = OP_TRAP
  · by_cases hg : instr &&& 0xFF = 32
    · rcases hs : s.stdin with _ | ⟨b, rest⟩ <;>
        · simp [execute, hTRAP, hg, hs, OP_ADD, OP_AND, OP_NOT, OP_BR, OP_JMP, OP_JSR, OP_LD,
            OP_LDI, OP_LDR, OP_LEA, OP_ST, OP_STI, OP_STR, OP_TRAP, TRAP_GETC]
          exact update_flags_cond_valid _ _
    by_cases ho : instr &&& 0xFF = 33
    · simp [execute, hTRAP, hg, ho, OP_ADD, OP_AND, OP_NOT, OP_BR, OP_JMP, OP_JSR, OP_LD,
        OP_LDI, OP_LDR, OP_LEA, OP_ST, OP_STI, OP_STR, OP_TRAP, TRAP_GETC, TRAP_OUT, wset,
        R_COND, R_R7]
      exact h
    by_cases hp : instr &&& 0xFF = 34
    · simp [execute, hTRAP, hg, ho, hp, OP_ADD, OP_AND, OP_NOT, OP_BR, OP_JMP, OP_JSR, OP_LD,
        OP_LDI, OP_LDR, OP_LEA, OP_ST, OP_STI, OP_STR, OP_TRAP, TRAP_GETC, TRAP_OUT, TRAP_PUTS,
        wset, R_COND, R_R7]
      exact h
    by_cases hi : instr &&& 0xFF = 35
    · rcases hs : s.stdin with _ | ⟨b, rest⟩ <;>
        · simp [execute, hTRAP, hg, ho, hp, hi, hs, OP_ADD, OP_AND, OP_NOT, OP_BR, OP_JMP,
            OP_JSR, OP_LD, OP_LDI, OP_LDR, OP_LEA, OP_ST, OP_STI, OP_STR, OP_TRAP, TRAP_GETC,
            TRAP_OUT, TRAP_PUTS, TRAP_IN]
          exact update_flags_cond_valid _ _
    by_cases hq : instr &&& 0xFF = 36
    · simp [execute, hTRAP, hg, ho, hp, hi, hq, OP_ADD, OP_AND, OP_NOT, OP_BR, OP_JMP, OP_JSR,
        OP_LD, OP_LDI, OP_LDR, OP_LEA, OP_ST, OP_STI, OP_STR, OP_TRAP, TRAP_GETC, TRAP_OUT,
        TRAP_PUTS, TRAP_IN, TRAP_PUTSP, wset, R_COND, R_R7]
      exact h
    by_cases hh : instr &&& 0xFF = 37
    · simp [execute, hTRAP, hg, ho, hp, hi, hq, hh, OP_ADD, OP_AND, OP_NOT, OP_BR, OP_JMP,
        OP_JSR, OP_LD, OP_LDI, OP_LDR, OP_LEA, OP_ST, OP_STI, OP_STR, OP_TRAP, TRAP_GETC,
        TRAP_OUT, TRAP_PUTS, TRAP_IN, TRAP_PUTSP, TRAP_HALT, wset, R_COND, R_R7]
      exact h
    · simp [execute, hTRAP, hg, ho, hp, hi, hq, hh, OP_ADD, OP_AND, OP_NOT, OP_BR, OP_JMP,
        OP_JSR, OP_LD, OP_LDI, OP_LDR, OP_LEA, OP_ST, OP_STI, OP_STR, OP_TRAP, TRAP_GETC,
        TRAP_OUT, TRAP_PUTS, TRAP_IN, TRAP_PUTSP, TRAP_HALT, wset, R_COND, R_R7]
      exact h
  · simp [execute, hADD, hAND, hNOT, hBR, hJMP, hJSR, hLD, hLDI, hLDR, hLEA, hST, hSTI, hSTR,
      hTRAP]
    exact h

theorem execute_flag_match (s : VMState) (instr : Nat) (hf : flagUpdating instr = true) :
    (execute instr s).regs R_COND = signFlagSpec ((execute instr s).regs (destOf instr)) := by
  have hand9 : (instr >>> 9) &&& 7 ≤ 7 := Nat.and_le_right
  have hop : instr >>> 12 = 1 ∨ instr >>> 12 = 5 ∨ instr >>> 12 = 9 ∨ instr >>> 12 = 2 ∨
      instr >>> 12 = 10 ∨ instr >>> 12 = 6 ∨ instr >>> 12 = 14 ∨
      (instr >>> 12 = 15 ∧ (instr &&& 255 = 32 ∨ instr &&& 255 = 35)) := by
    unfold flagUpdating at hf
    simp only [Bool.or_eq_true, Bool.and_eq_true, beq_iff_eq, OP_ADD, OP_AND, OP_NOT, OP_LD,
      OP_LDI, OP_LDR, OP_LEA, OP_TRAP, TRAP_GETC, TRAP_IN] at hf
    tauto
  rcases hop with h | h | h | h | h | h | h | ⟨h, hv | hv⟩
  · by_cases him : instr >>> 5 % 2 = 1 <;>
      · simp [execute, destOf, h, him, OP_ADD, OP_TRAP]
        apply update_flags_dest _ _ hand9
        simp only [wset_self]
        exact word_lt _
  · by_cases him : instr >>> 5 % 2 = 1 <;>
      · simp [execute, destOf, h, him, OP_ADD, OP_AND, OP_TRAP]
        apply update_flags_dest _ _ hand9
        simp only [wset_self]
        exact word_lt _
  · simp [execute, destOf, h, OP_ADD, OP_AND, OP_NOT, OP_TRAP]
    apply update_flags_dest _ _ hand9
    simp only [wset_self]
    exact word_lt _
  · simp [execute, destOf, h, OP_ADD, OP_AND, OP_NOT, OP_BR, OP_JMP, OP_JSR, OP_LD, OP_TRAP]
    apply update_flags_dest _ _ hand9
    simp only [wset_self]
    exact word_lt _
  · simp [execute, destOf, h, OP_ADD, OP_AND, OP_NOT, OP_BR, OP_JMP, OP_JSR, OP_LD, OP_LDI,
      OP_TRAP]
    apply update_flags_dest _ _ hand9
    simp only [wset_self]
    exact word_lt _
  · simp [execute, destOf, h, OP_ADD, OP_AND, OP_NOT, OP_BR, OP_JMP, OP_JSR, OP_LD, OP_LDI,
      OP_LDR, OP_TRAP]
    apply update_flags_dest _ _ hand9
    simp only [wset_self]
    exact word_lt _
  · simp [execute, destOf, h, OP_ADD, OP_AND, OP_NOT, OP_BR, OP_JMP, OP_JSR, OP_LD, OP_LDI,
      OP_LDR, OP_LEA, OP_TRAP]
    apply update_flags_dest _ _ hand9
    simp only [wset_self]
    exact word_lt _
  · rcases hs : s.stdin with _ | ⟨b, rest⟩ <;>
      · simp [execute, destOf, h, hv, hs, OP_ADD, OP_AND, OP_NOT, OP_BR, OP_JMP, OP_JSR, OP_LD,
          OP_LDI, OP_LDR, OP_LEA, OP_ST, OP_STI, OP_STR, OP_TRAP, TRAP_GETC, R_R0]
        apply update_flags_dest _ _ (by norm_num)
        simp only [wset_self]
        exact word_lt _
  · rcases hs : s.stdin with _ | ⟨b, rest⟩ <;>
      · simp [execute, destOf, h, hv, hs, OP_ADD, OP_AND, OP_NOT, OP_BR, OP_JMP, OP_JSR, OP_LD,
          OP_LDI, OP_LDR, OP_LEA, OP_ST, OP_STI, OP_STR, OP_TRAP, TRAP_GETC, TRAP_OUT,
          TRAP_PUTS, TRAP_IN, R_R0]
        apply update_flags_dest _ _ (by norm_num)
        simp only [wset_self]
        exact word_lt _

/-- Claim C7: in every state reachable from the initial state (COND = ZRO)
by executing instructions, COND holds exactly one of {POS=1, ZRO=2, NEG=4};
and after every flag-updating instruction the flag matches the sign of the
destination register's 16-bit two's-complement value (ZRO iff zero, NEG iff
bit 15 set, POS otherwise). -/
theorem cond_flags_invariant :
    (∀ (files : List (List Nat)) (input : List Nat) (junk n : Nat),
      condValid ((stepN n (initState files input junk)).regs R_COND)) ∧
    (∀ (s : VMState) (instr : Nat), flagUpdating instr = true →
      (execute instr s).regs R_COND = signFlagSpec ((execute instr s).regs (destOf instr))) := by
  constructor
  · have hstep : ∀ s : VMState, condValid (s.regs R_COND) → condValid ((step s).regs R_COND) := by
      intro s h
      unfold step
      split
      · apply execute_condValid
        simp [mem_read_regs, wset, R_COND, R_PC]
        exact h
      · exact h
    have hiter : ∀ (n : Nat) (s : VMState),
        condValid (s.regs R_COND) → condValid ((stepN n s).regs R_COND) := by
      intro n
      induction n with
      | zero => intro s h; exact h
      | succ n ih => intro s h; exact ih _ (hstep _ h)
    intro files input junk n
    apply hiter
    simp [initState, wset, R_COND, R_PC, condValid, FL_ZRO, word]
  · exact fun s instr hf => execute_flag_match s instr hf

/-- Claim C7 witness: the invariant after one step of a loaded machine, and
the flag-match statement applied to the flag-updating instruction 0x127F
on `stateA`. -/
theorem cond_flags_invariant_witness :
    condValid ((stepN 1 (initState [encodeImage 0x3000 [0x127F]] [] 0)).regs R_COND) ∧
    (flagUpdating 0x127F = true ∧
      (execute 0x127F stateA).regs R_COND = signFlagSpec ((execute 0x127F stateA).regs (destOf 0x127F))) :=
  ⟨cond_flags_invariant.1 [encodeImage 0x3000 [0x127F]] [] 0 1,
   ⟨rfl, cond_flags_invariant.2 stateA 0x127F rfl⟩⟩

/-- Claim C8 witness: the ADD-wrap statement applied at the immediate-mode
instruction 0x127F (ADD R1,R1,#-1) and at the register-mode instruction
0x1042 (ADD R0,R1,R2) on `stateA` (whose R1 is 0). -/
theorem add_modulo_wrap_witness :
    (execute 0x127F stateA).regs ((0x127F >>> 9) &&& 0x7) =
      (stateA.regs ((0x127F >>> 6) &&& 0x7) + sign_extend (0x127F &&& 0x1F) 5) % 65536 ∧
    (execute 0x1042 stateA).regs ((0x1042 >>> 9) &&& 0x7) =
      (stateA.regs ((0x1042 >>> 6) &&& 0x7) + stateA.regs (0x1042 &&& 0x7)) % 65536 ∧
    (execute 0x127F stateA).regs 1 = 0xFFFF ∧ (execute 0x127F stateA).regs R_COND = FL_NEG :=
  ⟨add_modulo_wrap.1 stateA 0x127F (by decide) (by decide),
   add_modulo_wrap.2.1 stateA 0x1042 (by decide) (by decide),
   (add_modulo_wrap.2.2 stateA rfl).1, (add_modulo_wrap.2.2 stateA rfl).2⟩
